import Mathlib

/-!
Verification of the "Recent Files" panel (`src/web/static/recent.js`) of
the desktop-index repository, against its natural-language specification,
together with the icon/date helpers of the shared utilities module.

Modelling conventions (shallow embedding of the JavaScript):
- JS strings are Lean `String`s (a `List Char` under the hood); possibly
  `undefined` values are `Option`s.
- Timestamps are `Int` milliseconds since the epoch: `new Date(s)` applied
  to a present ISO-8601 string is abstracted to the parsed millisecond
  value, and `new Date()` ("now") to a second `Int` parameter.
- `Math.floor(a / b)` on integer `a` and positive integer `b` is `Int.fdiv`.
- `date.toLocaleDateString('ja-JP', {month: 'short', day: 'numeric'})` is
  locale-dependent; it is abstracted to a function parameter
  `localeDateString : Int → String` of the date being formatted.
- A function that can throw a `TypeError` returns an `Option`; `none` is
  the thrown exception.
- The DOM write `container.innerHTML = h` is modelled by returning the
  string `h`; the four visual states of the panel are the four distinct
  template strings the code assigns.
-/

namespace RecentFilesPanel

/-- JS `String.prototype.toLowerCase()` (code-point-wise lowering). -/
def jsToLower (s : String) : String := ⟨s.data.map Char.toLower⟩

/-- A record of the `/api/recent` response's `hits` array, as consumed by
`recent.js`. Every field may be absent (`undefined`) in a malformed record;
`modified_at` is the parsed millisecond timestamp of the ISO string. -/
structure RecentFile where
  path : Option String
  filename : Option String
  extension : Option String
  modified_at : Option Int
deriving Repr, DecidableEq

/-- The `FILTER_MAP` object literal of recent.js. `none` stands both for
the `null` stored under the key `all` and for the `undefined` produced by
looking up a key that is not in the literal; both are falsy. -/
def FILTER_MAP (s : String) : Option String :=
  if s = "all" then none
  else if s = "pdf" then some "pdf"
  else if s = "word" then some "docx"
  else if s = "excel" then some "xlsx"
  else none

/-- The `FILE_ICONS` object literal of recent.js, keys only (the `default`
entry is applied by `getFileIcon`). -/
def FILE_ICONS (ext : String) : Option String :=
  if ext = ".pdf" then some "📕"
  else if ext = ".doc" then some "📘"
  else if ext = ".docx" then some "📘"
  else if ext = ".xls" then some "📗"
  else if ext = ".xlsx" then some "📗"
  else if ext = ".ppt" then some "📙"
  else if ext = ".pptx" then some "📙"
  else none

/-- The `default` entry of `FILE_ICONS`. -/
def FILE_ICONS_default : String := "📄"

/-- Function `getFileIcon` of recent.js: `(extension || '').toLowerCase()` then
lookup in `FILE_ICONS` with the default as fallback. -/
def getFileIcon (extension : Option String) : String :=
  let ext := jsToLower (extension.getD "")
  (FILE_ICONS ext).getD FILE_ICONS_default

/-- JS `str.split(sep)` for a one-character separator: maximal splitting
that keeps empty pieces; the empty string splits to `[""]`. -/
def splitOnChar (sep : Char) : List Char → List (List Char)
  | [] => [[]]
  | c :: l =>
    let r := splitOnChar sep l
    if c = sep then [] :: r
    else
      match r with
      | [] => [[c]]
      | h :: t => (c :: h) :: t

/-- Function `getFolderPath` of recent.js: guard on a falsy path, replace `/` by
`\`, split on `\`, `pop()` the filename, `join('\\')`. -/
def getFolderPath : Option String → String
  | none => ""
  | some p =>
    if p = "" then ""
    else
      let parts := splitOnChar '\\' (p.data.map fun c => if c = '/' then '\\' else c)
      ⟨List.intercalate ['\\'] parts.dropLast⟩

/-- Function `formatRelativeDate` of recent.js. `none` is a falsy
`dateString` (absent or empty); `localeDateString` abstracts
`toLocaleDateString('ja-JP', ...)` on the parsed date. -/
def formatRelativeDate (localeDateString : Int → String) (dateString : Option Int)
    (now : Int) : String :=
  match dateString with
  | none => ""
  | some date =>
    let diffMs : Int := now - date
    let diffMinutes : Int := Int.fdiv diffMs 60000
    let diffHours : Int := Int.fdiv diffMs 3600000
    let diffDays : Int := Int.fdiv diffMs 86400000
    if diffMinutes < 1 then "今"
    else if diffMinutes < 60 then toString diffMinutes ++ "分前"
    else if diffHours < 24 then toString diffHours ++ "時間前"
    else if diffDays < 7 then toString diffDays ++ "日前"
    else localeDateString date

/-- The double-quote character, written by code point to keep it apart
from string delimiters. -/
def quotC : Char := Char.ofNat 34

/-- The apostrophe character, written by code point. -/
def aposC : Char := Char.ofNat 39

/-- JS `str.replace(/c/g, r)` for a one-character pattern `c` and a
replacement string `r`, on the character list of the string. -/
def replaceChar (c : Char) (r : List Char) : List Char → List Char
  | [] => []
  | a :: l => (if a = c then r else [a]) ++ replaceChar c r l

/-- The five chained `.replace` calls of `escapeHTML` in recent.js, in
source order: `&` first, then `<`, `>`, `"`, `'`. -/
def escapeHTMLList (l : List Char) : List Char :=
  replaceChar aposC "&#039;".data
    (replaceChar quotC "&quot;".data
      (replaceChar '>' "&gt;".data
        (replaceChar '<' "&lt;".data
          (replaceChar '&' "&amp;".data l))))

/-- Function `escapeHTML` of recent.js. `none` is an `undefined` argument; the
`if (!str) return ''` guard also catches the empty string. -/
def escapeHTML : Option String → String
  | none => ""
  | some s => if s = "" then "" else ⟨escapeHTMLList s.data⟩

/-- The per-character entity form the spec describes: each of the five
markup-special characters becomes its entity, every other character is
kept. -/
def escCharL (c : Char) : List Char :=
  if c = '&' then "&amp;".data
  else if c = '<' then "&lt;".data
  else if c = '>' then "&gt;".data
  else if c = quotC then "&quot;".data
  else if c = aposC then "&#039;".data
  else [c]

/-- The tails that may legitimately follow a `&` in escaped output. -/
def entityTails : List (List Char) :=
  ["amp;".data, "lt;".data, "gt;".data, "quot;".data, "#039;".data]

/-- Every `&` in the list starts one of the five entities. -/
def ampOk : List Char → Bool
  | [] => true
  | c :: rest =>
    if c = '&' then (entityTails.any fun t => t.isPrefixOf rest) && ampOk rest
    else ampOk rest

/-- A string is HTML-safe when it carries no raw `<`, `>`, `"`, `'` and
every `&` in it begins an entity. -/
def htmlSafe (s : String) : Prop :=
  '<' ∉ s.data ∧ '>' ∉ s.data ∧ quotC ∉ s.data ∧ aposC ∉ s.data ∧
    ampOk s.data = true

/-- The display-name truncation of `createFileItemHTML`:
`file.filename.length > 30 ? file.filename.substring(0, 27) + '...' :
file.filename`. -/
def truncatedFilename (fn : String) : String :=
  if 30 < fn.data.length then ⟨fn.data.take 27⟩ ++ "..." else fn

/-- The template literal returned by `createFileItemHTML`, with its six
interpolation holes already filled (the folder path is interpolated twice,
as `title` and as content). -/
def rowHTML (pathEsc titleEsc icon nameEsc folderEsc date : String) : String :=
  "\n        <div class=\"recent-file-item\" data-path=\"" ++ pathEsc ++
  "\" title=\"" ++ titleEsc ++
  "\">\n            <div class=\"recent-file-header\">\n                <span class=\"recent-file-icon\">" ++
  icon ++
  "</span>\n                <span class=\"recent-file-name\">" ++ nameEsc ++
  "</span>\n            </div>\n            <div class=\"recent-file-path\" title=\"" ++
  folderEsc ++ "\">" ++ folderEsc ++
  "</div>\n            <div class=\"recent-file-date\">📅 " ++ date ++
  "</div>\n        </div>\n    "

/-- Function `createFileItemHTML` of recent.js. Reading `file.filename.length` on an
absent filename throws a `TypeError`, modelled by `none`; every other field
may be absent without failure. -/
def createFileItemHTML (localeDateString : Int → String) (now : Int)
    (file : RecentFile) : Option String :=
  match file.filename with
  | none => none
  | some fn =>
    let icon := getFileIcon file.extension
    let date := formatRelativeDate localeDateString file.modified_at now
    let folderPath := getFolderPath file.path
    let filename := truncatedFilename fn
    some (rowHTML (escapeHTML file.path) (escapeHTML (some fn)) icon
      (escapeHTML (some filename)) (escapeHTML (some folderPath)) date)

/-- The filtering step of `displayFilteredFiles` in recent.js:
`currentFilter !== 'all'`, lookup in `FILTER_MAP`, truthiness guard, then
`allFilesCache.filter(...)` with the word/excel special cases and the
template `'.' + filterExt` comparison. -/
def filterFiles (allFilesCache : List RecentFile) (currentFilter : String) :
    List RecentFile :=
  if currentFilter = "all" then allFilesCache
  else
    match FILTER_MAP currentFilter with
    | none => allFilesCache
    | some filterExt =>
      allFilesCache.filter fun file =>
        let ext := jsToLower (file.extension.getD "")
        if currentFilter = "word" then ext == ".doc" || ext == ".docx"
        else if currentFilter = "excel" then ext == ".xls" || ext == ".xlsx"
        else ext == "." ++ filterExt

/-- The empty-state template of `displayFilteredFiles`. -/
def emptyHTML : String :=
  "\n            <div class=\"recent-files-empty\">\n                📭 該当するファイルがありません\n            </div>\n        "

/-- The fixed prefix of the error-state template of `loadRecentFiles`,
up to the interpolated `error.message`. -/
def errorPre : String :=
  "\n            <div class=\"recent-files-error\">\n                ⚠️ ファイルの取得に失敗しました<br>\n                <small>"

/-- The fixed suffix of the error-state template of `loadRecentFiles`. -/
def errorPost : String := "</small>\n            </div>\n        "

/-- The error-state template of `loadRecentFiles`, carrying the failure's
message text. -/
def errorHTML (msg : String) : String := errorPre ++ msg ++ errorPost

/-- The trailing count label of the populated state. -/
def countHTML (n : Nat) : String :=
  "\n        <div class=\"recent-files-count\">\n            " ++ toString n ++
  " 件のファイル\n        </div>\n    "

/-- The expression `filteredFiles.map(file => createFileItemHTML(file)).join('')`, with a
thrown `TypeError` propagating as `none`. -/
def rowsHTML (localeDateString : Int → String) (now : Int) :
    List RecentFile → Option String
  | [] => some ""
  | file :: rest =>
    match createFileItemHTML localeDateString now file,
        rowsHTML localeDateString now rest with
    | some h, some t => some (h ++ t)
    | _, _ => none

/-- Function `displayFilteredFiles` of recent.js as a pure view function: the
string assigned to `container.innerHTML` (empty state, or rows plus count
label), or `none` when row rendering throws. -/
def displayFilteredFiles (allFilesCache : List RecentFile)
    (currentFilter : String) (localeDateString : Int → String) (now : Int) :
    Option String :=
  let filteredFiles := filterFiles allFilesCache currentFilter
  if filteredFiles.length = 0 then some emptyHTML
  else
    (rowsHTML localeDateString now filteredFiles).map
      fun h => h ++ countHTML filteredFiles.length

/-- The parsed body of a completed `/api/recent` fetch; `hits` may be
absent from a well-formed body. -/
structure FetchResponse where
  hits : Option (List RecentFile)
deriving Repr, DecidableEq

/-- The message of the `TypeError` thrown when row rendering reads
`length` of an absent filename; it is caught by the same `try` block. -/
def typeErrorMessage : String :=
  "Cannot read properties of undefined (reading \x27length\x27)"

/-- Function `loadRecentFiles` of recent.js, from the point where the fetch
settles: a rejected or non-`ok` or unparsable fetch is the `.error msg`
case (the thrown `Error`'s message), a parsed body the `.ok` case. Returns
the new `allFilesCache` and the string rendered into the container. -/
def loadRecentFiles (priorCache : List RecentFile) (currentFilter : String)
    (localeDateString : Int → String) (now : Int)
    (result : Except String FetchResponse) : List RecentFile × String :=
  match result with
  | .error msg => (priorCache, errorHTML msg)
  | .ok data =>
    let allFilesCache := data.hits.getD []
    match displayFilteredFiles allFilesCache currentFilter localeDateString now with
    | some html => (allFilesCache, html)
    | none => (allFilesCache, errorHTML typeErrorMessage)

/-! ### The shared utilities module (the collaborator of §4.3/§6)

Embeddings of `getFileIcon` and `formatRelativeDate` from the shared
front-end utilities file, for the refinement claims comparing them with
the core's own definitions. -/

/-- The `iconMap` object literal of the shared utilities module's
`getFileIcon`: the full category table (documents, text, source code,
archives, images, audio, video). -/
def utilsIconMap : List (String × String) :=
  [(".pdf", "📕"), (".doc", "📘"), (".docx", "📘"), (".xls", "📗"),
   (".xlsx", "📗"), (".ppt", "📙"), (".pptx", "📙"),
   (".txt", "📄"), (".md", "📝"), (".csv", "📊"), (".json", "📋"),
   (".xml", "📋"), (".yaml", "📋"), (".yml", "📋"),
   (".py", "🐍"), (".js", "📜"), (".ts", "📜"), (".html", "🌐"),
   (".css", "🎨"), (".java", "☕"), (".c", "⚙️"), (".cpp", "⚙️"),
   (".go", "🔷"), (".rs", "🦀"), (".rb", "💎"), (".php", "🐘"),
   (".sql", "🗃️"),
   (".zip", "📦"), (".rar", "📦"), (".7z", "📦"), (".tar", "📦"),
   (".gz", "📦"),
   (".jpg", "🖼️"), (".jpeg", "🖼️"), (".png", "🖼️"), (".gif", "🖼️"),
   (".svg", "🖼️"), (".webp", "🖼️"),
   (".mp3", "🎵"), (".wav", "🎵"), (".flac", "🎵"), (".aac", "🎵"),
   (".mp4", "🎬"), (".avi", "🎬"), (".mkv", "🎬"), (".mov", "🎬"),
   (".webm", "🎬")]

/-- Function `getFileIcon` of the shared utilities module:
`iconMap[extension.toLowerCase()] || '📄'`. Unlike the core's version it
has no guard, so it assumes a present string argument. -/
def utils_getFileIcon (extension : String) : String :=
  (utilsIconMap.lookup (jsToLower extension)).getD "📄"

/-- Function `formatRelativeDate` of the shared utilities module: day-granularity
labels 今日/昨日/N日前/N週間前/Nヶ月前/N年前, and 不明 for a falsy
argument. -/
def utils_formatRelativeDate (dateString : Option Int) (now : Int) : String :=
  match dateString with
  | none => "不明"
  | some date =>
    let diffMs : Int := now - date
    let diffDays : Int := Int.fdiv diffMs 86400000
    if diffDays = 0 then "今日"
    else if diffDays = 1 then "昨日"
    else if diffDays < 7 then toString diffDays ++ "日前"
    else if diffDays < 30 then toString (Int.fdiv diffDays 7) ++ "週間前"
    else if diffDays < 365 then toString (Int.fdiv diffDays 30) ++ "ヶ月前"
    else toString (Int.fdiv diffDays 365) ++ "年前"

/-! ### Spec-side definitions

Definitions written from the specification's words, to be compared with
the embedded code. -/

/-- The FilterEngine predicate as the spec states it: `all` keeps every
entry; `pdf` keeps `.pdf`; `word` keeps `.doc`/`.docx`; `excel` keeps
`.xls`/`.xlsx`; every other selector behaves as `all`; matching is
case-insensitive on the extension. -/
def spec_filterPred (selector : String) (file : RecentFile) : Bool :=
  let ext := jsToLower (file.extension.getD "")
  if selector = "pdf" then ext == ".pdf"
  else if selector = "word" then ext == ".doc" || ext == ".docx"
  else if selector = "excel" then ext == ".xls" || ext == ".xlsx"
  else true

/-- The folder-path derivation as the spec states it: normalize `/` to
`\`, split on `\`, drop the final segment, rejoin with `\`. -/
def spec_folderPath (p : String) : String :=
  ⟨List.intercalate ['\\']
    ((splitOnChar '\\' (p.data.map fun c => if c = '/' then '\\' else c)).dropLast)⟩

/-! ### Helper lemmas -/

theorem fdiv_60000 (a : Int) : Int.fdiv a 60000 = a / 60000 :=
  Int.fdiv_eq_ediv _ (by norm_num)

theorem fdiv_3600000 (a : Int) : Int.fdiv a 3600000 = a / 3600000 :=
  Int.fdiv_eq_ediv _ (by norm_num)

theorem fdiv_86400000 (a : Int) : Int.fdiv a 86400000 = a / 86400000 :=
  Int.fdiv_eq_ediv _ (by norm_num)

theorem filterFiles_nil (selector : String) : filterFiles [] selector = [] := by
  unfold filterFiles
  by_cases h : selector = "all"
  · rw [if_pos h]
  · rw [if_neg h]
    cases hf : FILTER_MAP selector <;> simp

theorem displayFilteredFiles_nil (selector : String) (f : Int → String)
    (now : Int) : displayFilteredFiles [] selector f now = some emptyHTML := by
  unfold displayFilteredFiles
  rw [filterFiles_nil]
  rfl

/-! ### Claims -/

/-- C1: for every cache list and every selector value, the filtering step
returns the stable, order-preserving subsequence of the cache containing
exactly the entries whose extension, normalized to lowercase, satisfies
the selector's predicate (`all` keeps everything, `pdf` keeps `.pdf`,
`word` keeps `.doc`/`.docx`, `excel` keeps `.xls`/`.xlsx`), and every
selector outside `{all, pdf, word, excel}` behaves as `all` and never
throws. -/
theorem filter_is_stable_subsequence_by_extension
    (cache : List RecentFile) (selector : String) :
    filterFiles cache selector = cache.filter (spec_filterPred selector) ∧
    List.Sublist (filterFiles cache selector) cache ∧
    (∀ f, f ∈ filterFiles cache selector ↔
      f ∈ cache ∧ spec_filterPred selector f = true) := by
  have hmain : filterFiles cache selector = cache.filter (spec_filterPred selector) := by
    by_cases h1 : selector = "all"
    · subst h1
      have hp : spec_filterPred "all" = fun _ => true := by
        funext f; simp [spec_filterPred]
      simp [filterFiles, FILTER_MAP, hp]
    by_cases h2 : selector = "pdf"
    · subst h2
      have hp : spec_filterPred "pdf" =
          fun f => jsToLower (f.extension.getD "") == ".pdf" := by
        funext f; simp [spec_filterPred]
      simp [filterFiles, FILTER_MAP, hp]
    by_cases h3 : selector = "word"
    · subst h3
      have hp : spec_filterPred "word" = fun f =>
          jsToLower (f.extension.getD "") == ".doc" ||
            jsToLower (f.extension.getD "") == ".docx" := by
        funext f; simp [spec_filterPred]
      simp [filterFiles, FILTER_MAP, hp]
    by_cases h4 : selector = "excel"
    · subst h4
      have hp : spec_filterPred "excel" = fun f =>
          jsToLower (f.extension.getD "") == ".xls" ||
            jsToLower (f.extension.getD "") == ".xlsx" := by
        funext f; simp [spec_filterPred]
      simp [filterFiles, FILTER_MAP, hp]
    · have hp : spec_filterPred selector = fun _ => true := by
        funext f; simp [spec_filterPred, h2, h3, h4]
      simp [filterFiles, FILTER_MAP, hp, h1, h2, h3, h4]
  refine ⟨hmain, ?_, ?_⟩
  · rw [hmain]; exact List.filter_sublist cache
  · intro f; rw [hmain]; exact List.mem_filter

/-- C7: the displayed name is the filename unchanged when its length is at
most 30 characters, and the first 27 characters followed by the ellipsis
marker when the length exceeds 30. -/
theorem display_name_truncation (fn : String) :
    (fn.data.length ≤ 30 → truncatedFilename fn = fn) ∧
    (30 < fn.data.length →
      truncatedFilename fn = String.mk (fn.data.take 27) ++ "...") := by
  constructor
  · intro h; unfold truncatedFilename; rw [if_neg (by omega)]
  · intro h; unfold truncatedFilename; rw [if_pos h]

/-- C7 witness: a 35-character filename is truncated to its first 27
characters plus the ellipsis marker, and a 30-character filename renders
unchanged. -/
theorem display_name_truncation_witness :
    truncatedFilename "abcdefghijklmnopqrstuvwxyz012345678" =
      "abcdefghijklmnopqrstuvwxyz0" ++ "..." ∧
    truncatedFilename "abcdefghijklmnopqrstuvwxyz0123" =
      "abcdefghijklmnopqrstuvwxyz0123" := by
  constructor
  · exact ((display_name_truncation "abcdefghijklmnopqrstuvwxyz012345678").2
      (by decide)).trans (by decide)
  · exact (display_name_truncation "abcdefghijklmnopqrstuvwxyz0123").1 (by decide)

/-- C9: for every path string the rendered folder path equals the result
of replacing every forward slash with a backslash, splitting on backslash,
dropping the final segment and rejoining with backslash; an empty or
absent path yields an empty folder path. -/
theorem folder_path_derivation (p : String) :
    getFolderPath (some p) = spec_folderPath p ∧
    getFolderPath none = "" ∧ spec_folderPath "" = "" := by
  refine ⟨?_, rfl, by decide⟩
  simp only [getFolderPath, spec_folderPath]
  by_cases h : p = ""
  · subst h; decide
  · rw [if_neg h]

/-- C5 counterexample: the row icon is not obtained from a category table
covering source code (or text, images, audio, video, archives): `.py` is
absent from the panel's `FILE_ICONS` table and yields the default glyph,
while the full category table of the shared utilities maps it to a
distinct glyph. -/
theorem icon_table_counterexample :
    FILE_ICONS ".py" = none ∧ getFileIcon (some ".py") = "📄" ∧
    utilsIconMap.lookup ".py" = some "🐍" ∧
    getFileIcon (some ".py") ≠ utils_getFileIcon ".py" := by decide

/-- C5 amended: the row icon is obtained by looking the lowercased
extension up in the panel's fixed `FILE_ICONS` table, which covers only
office document extensions; an extension not in that table, or an
empty or absent extension, yields the generic default glyph. -/
theorem icon_lookup_with_default (ext : Option String) :
    getFileIcon none = "📄" ∧ getFileIcon (some "") = "📄" ∧
    (∀ s, ext = some s → FILE_ICONS (jsToLower s) = none →
      getFileIcon ext = "📄") ∧
    (∀ s g, ext = some s → FILE_ICONS (jsToLower s) = some g →
      getFileIcon ext = g) := by
  refine ⟨by decide, by decide, ?_, ?_⟩
  · intro s hs h; subst hs
    unfold getFileIcon
    simp only [Option.getD_some, h]
    try rfl
  · intro s g hs h; subst hs
    unfold getFileIcon
    simp only [Option.getD_some, h]
    try rfl

/-- C5 witness: the amended lookup evaluated at a cased office extension
and at an unknown extension. -/
theorem icon_lookup_with_default_witness :
    getFileIcon (some ".PDF") = "📕" ∧ getFileIcon (some ".foo") = "📄" := by
  constructor
  · exact (icon_lookup_with_default (some ".PDF")).2.2.2 ".PDF" "📕" rfl (by decide)
  · exact (icon_lookup_with_default (some ".foo")).2.2.1 ".foo" rfl (by decide)

/-- C3 counterexample: the core's inlined icon-lookup and
relative-date-formatting functions do not produce output identical to the
shared utilities module's functions on every input: they differ at the
extension `.py`, at an absent timestamp, and at a 90-second elapsed
time. -/
theorem inlined_helpers_differ :
    getFileIcon (some ".py") ≠ utils_getFileIcon ".py" ∧
    formatRelativeDate (fun _ => "") none 0 ≠ utils_formatRelativeDate none 0 ∧
    formatRelativeDate (fun _ => "") (some 0) 90000 ≠
      utils_formatRelativeDate (some 0) 90000 := by
  refine ⟨by decide, by decide, by decide⟩

/-- C3 amended: the core's inlined functions agree with the shared
utilities module's only on part of the domain: the icon functions agree on
any extension whose lowercase form is in the panel's office table, and the
date functions agree exactly when the elapsed time is at least 2 and less
than 7 whole days; elsewhere they may differ. -/
theorem inlined_helpers_partial_agreement :
    (∀ ext : String, FILE_ICONS (jsToLower ext) ≠ none →
      getFileIcon (some ext) = utils_getFileIcon ext) ∧
    (∀ (f : Int → String) (d n : Int),
      2 * 86400000 ≤ n - d → n - d < 7 * 86400000 →
      formatRelativeDate f (some d) n = utils_formatRelativeDate (some d) n) := by
  constructor
  · intro ext h
    unfold getFileIcon utils_getFileIcon
    simp only [Option.getD_some]
    by_cases h1 : jsToLower ext = ".pdf"
    · simp only [h1]; decide
    by_cases h2 : jsToLower ext = ".doc"
    · simp only [h2]; decide
    by_cases h3 : jsToLower ext = ".docx"
    · simp only [h3]; decide
    by_cases h4 : jsToLower ext = ".xls"
    · simp only [h4]; decide
    by_cases h5 : jsToLower ext = ".xlsx"
    · simp only [h5]; decide
    by_cases h6 : jsToLower ext = ".ppt"
    · simp only [h6]; decide
    by_cases h7 : jsToLower ext = ".pptx"
    · simp only [h7]; decide
    · exact absurd (by
        unfold FILE_ICONS
        rw [if_neg h1, if_neg h2, if_neg h3, if_neg h4, if_neg h5, if_neg h6,
          if_neg h7]) h
  · intro f d n h2 h7
    simp only [formatRelativeDate, utils_formatRelativeDate, fdiv_60000,
      fdiv_3600000, fdiv_86400000]
    rw [if_neg (by omega), if_neg (by omega), if_neg (by omega),
      if_pos (by omega), if_neg (by omega), if_neg (by omega),
      if_pos (by omega)]

/-- C3 witness: the partial agreement evaluated at the office extension
`.DOCX` and at a 3-day elapsed time. -/
theorem inlined_helpers_partial_agreement_witness :
    getFileIcon (some ".DOCX") = utils_getFileIcon ".DOCX" ∧
    formatRelativeDate (fun _ => "") (some 0) 259200000 =
      utils_formatRelativeDate (some 0) 259200000 := by
  constructor
  · exact inlined_helpers_partial_agreement.1 ".DOCX" (by decide)
  · exact inlined_helpers_partial_agreement.2 (fun _ => "") 0 259200000
      (by norm_num) (by norm_num)

/-- C6: the relative date label is determined by the elapsed time with
integer-floor units: less than 1 minute yields the now-label, less than
60 minutes a minute count, less than 24 hours an hour count, less than
7 days a day count, and 7 days or more the localized short month/day
label; an absent timestamp yields an empty label. -/
theorem relative_date_thresholds (f : Int → String) (d now : Int) :
    (formatRelativeDate f none now = "") ∧
    (now - d < 60000 → formatRelativeDate f (some d) now = "今") ∧
    (60000 ≤ now - d → now - d < 3600000 →
      formatRelativeDate f (some d) now = toString ((now - d) / 60000) ++ "分前") ∧
    (3600000 ≤ now - d → now - d < 86400000 →
      formatRelativeDate f (some d) now = toString ((now - d) / 3600000) ++ "時間前") ∧
    (86400000 ≤ now - d → now - d < 604800000 →
      formatRelativeDate f (some d) now = toString ((now - d) / 86400000) ++ "日前") ∧
    (604800000 ≤ now - d → formatRelativeDate f (some d) now = f d) := by
  refine ⟨rfl, ?_, ?_, ?_, ?_, ?_⟩ <;> intro h <;>
    simp only [formatRelativeDate, fdiv_60000, fdiv_3600000, fdiv_86400000]
  · rw [if_pos (by omega)]
  · intro hb; rw [if_neg (by omega), if_pos (by omega)]
  · intro hb; rw [if_neg (by omega), if_neg (by omega), if_pos (by omega)]
  · intro hb
    rw [if_neg (by omega), if_neg (by omega), if_neg (by omega),
      if_pos (by omega)]
  · rw [if_neg (by omega), if_neg (by omega), if_neg (by omega),
      if_neg (by omega)]

/-- C6 witness: 90 seconds of elapsed time yields the 1-minute label,
25 hours the 1-day label, and 10 days the localized month/day label. -/
theorem relative_date_thresholds_witness :
    formatRelativeDate (fun _ => "3月3日") (some 0) 90000 = "1分前" ∧
    formatRelativeDate (fun _ => "3月3日") (some 0) 90000000 = "1日前" ∧
    formatRelativeDate (fun _ => "3月3日") (some 0) 864000000 = "3月3日" := by
  refine ⟨?_, ?_, ?_⟩
  · exact ((relative_date_thresholds (fun _ => "3月3日") 0 90000).2.2.1
      (by norm_num) (by norm_num)).trans (by decide)
  · exact ((relative_date_thresholds (fun _ => "3月3日") 0 90000000).2.2.2.2.1
      (by norm_num) (by norm_num)).trans (by decide)
  · exact (relative_date_thresholds (fun _ => "3月3日") 0 864000000).2.2.2.2.2
      (by norm_num)

/-- C2: if a fetch of recent files fails (non-success status or an
unparsable body, both raising an error with some message), the controller
renders the Errored state carrying the failure's message text, leaves the
cache unchanged from its value before the attempt, and, being a total
function, does not let the failure propagate. -/
theorem fetch_failure_keeps_cache_and_renders_error
    (priorCache : List RecentFile) (selector : String) (f : Int → String)
    (now : Int) (msg : String) :
    loadRecentFiles priorCache selector f now (.error msg) =
      (priorCache, errorHTML msg) ∧
    (loadRecentFiles priorCache selector f now (.error msg)).1 = priorCache ∧
    errorHTML msg = errorPre ++ msg ++ errorPost := by
  exact ⟨rfl, rfl, rfl⟩

/-- C8: a completed fetch whose well-formed body lacks the `hits` field
stores an empty cache rather than failing, a fetch resolving to
`{hits: []}` renders the Empty state (the zero-entry message, with no
rows and no trailing count), and the Empty state is distinct from every
Errored state. -/
theorem missing_hits_empty_state (priorCache : List RecentFile)
    (selector : String) (f : Int → String) (now : Int) :
    (loadRecentFiles priorCache selector f now (.ok ⟨none⟩)).1 = [] ∧
    loadRecentFiles priorCache selector f now (.ok ⟨some []⟩) =
      ([], emptyHTML) ∧
    (∀ msg, emptyHTML ≠ errorHTML msg) := by
  refine ⟨?_, ?_, ?_⟩
  · simp [loadRecentFiles, displayFilteredFiles_nil]
  · simp [loadRecentFiles, displayFilteredFiles_nil]
  · intro msg h
    have hd : emptyHTML.data = (errorPre.data ++ msg.data) ++ errorPost.data := by
      rw [h]; rfl
    have h39 := congrArg (fun l => l[39]?) hd
    simp only at h39
    have hlen : 39 < (errorPre.data ++ msg.data).length := by
      rw [List.length_append]
      have h107 : errorPre.data.length = 107 := by decide
      omega
    rw [List.getElem?_append_left hlen] at h39
    have hpre : 39 < errorPre.data.length := by decide
    rw [List.getElem?_append_left hpre] at h39
    exact absurd h39 (by decide)

/-- C10: row rendering succeeds for every record whose filename is
present, even when extension, path and timestamp are all absent — then
with the default glyph, an empty folder path and an empty date label —
while a record with an absent filename makes it read the length of an
undefined value and throw. -/
theorem row_rendering_domain (f : Int → String) (now : Int) :
    (∀ file : RecentFile, file.filename = none →
      createFileItemHTML f now file = none) ∧
    (∀ fn : String,
      createFileItemHTML f now ⟨none, some fn, none, none⟩ =
        some (rowHTML "" (escapeHTML (some fn)) FILE_ICONS_default
          (escapeHTML (some (truncatedFilename fn))) "" "")) := by
  constructor
  · intro file h
    unfold createFileItemHTML
    rw [h]
  · intro fn; rfl

/-- C10 witness: a record with every optional field present but the
filename absent throws, while a record with only a filename renders. -/
theorem row_rendering_domain_witness :
    createFileItemHTML (fun _ => "") 0
      ⟨some "C:\\a\\b.txt", none, some ".txt", some 0⟩ = none ∧
    (createFileItemHTML (fun _ => "") 0
      ⟨none, some "a.txt", none, none⟩).isSome = true := by
  constructor
  · exact (row_rendering_domain (fun _ => "") 0).1 _ rfl
  · rw [(row_rendering_domain (fun _ => "") 0).2 "a.txt"]
    rfl

/-! ### The escaping lemmas for C4 -/

theorem replaceChar_append (c : Char) (r : List Char) (l₁ l₂ : List Char) :
    replaceChar c r (l₁ ++ l₂) = replaceChar c r l₁ ++ replaceChar c r l₂ := by
  induction l₁ with
  | nil => rfl
  | cons a l ih => simp [replaceChar, ih, List.append_assoc]

theorem escapeHTMLList_cons (a : Char) (l : List Char) :
    escapeHTMLList (a :: l) = escCharL a ++ escapeHTMLList l := by
  unfold escapeHTMLList
  rw [show replaceChar '&' "&amp;".data (a :: l) =
    (if a = '&' then "&amp;".data else [a]) ++ replaceChar '&' "&amp;".data l from rfl]
  rw [replaceChar_append, replaceChar_append, replaceChar_append, replaceChar_append]
  congr 1
  by_cases h1 : a = '&'
  · subst h1; decide
  by_cases h2 : a = '<'
  · subst h2; simp [h1]; decide
  by_cases h3 : a = '>'
  · subst h3; simp; decide
  by_cases h4 : a = quotC
  · subst h4; simp; decide
  by_cases h5 : a = aposC
  · subst h5; simp; decide
  · simp [replaceChar, escCharL, h1, h2, h3, h4, h5]

theorem escapeHTMLList_eq_flatMap (l : List Char) :
    escapeHTMLList l = l.flatMap escCharL := by
  induction l with
  | nil => rfl
  | cons a l ih => rw [escapeHTMLList_cons, ih, List.flatMap_cons]

theorem escCharL_no_raw (a c : Char)
    (hc : c = '<' ∨ c = '>' ∨ c = quotC ∨ c = aposC) : c ∉ escCharL a := by
  unfold escCharL
  by_cases h1 : a = '&'
  · subst h1; simp; rcases hc with h | h | h | h <;> subst h <;> decide
  by_cases h2 : a = '<'
  · subst h2; simp; rcases hc with h | h | h | h <;> subst h <;> decide
  by_cases h3 : a = '>'
  · subst h3; simp; rcases hc with h | h | h | h <;> subst h <;> decide
  by_cases h4 : a = quotC
  · subst h4; simp; rcases hc with h | h | h | h <;> subst h <;> decide
  by_cases h5 : a = aposC
  · subst h5; simp; rcases hc with h | h | h | h <;> subst h <;> decide
  · simp [h1, h2, h3, h4, h5]
    rintro rfl
    rcases hc with h | h | h | h
    · exact h2 h
    · exact h3 h
    · exact h4 h
    · exact h5 h

theorem ampOk_escCharL_append (a : Char) (l : List Char) (h : ampOk l = true) :
    ampOk (escCharL a ++ l) = true := by
  unfold escCharL
  by_cases h1 : a = '&'
  · subst h1; simp only [if_pos rfl]
    show ampOk ('&' :: 'a' :: 'm' :: 'p' :: ';' :: l) = true
    simp [ampOk, entityTails, List.isPrefixOf, h]
  by_cases h2 : a = '<'
  · subst h2; simp only [if_neg h1, if_pos rfl]
    show ampOk ('&' :: 'l' :: 't' :: ';' :: l) = true
    simp [ampOk, entityTails, List.isPrefixOf, h]
  by_cases h3 : a = '>'
  · subst h3; simp only [if_neg h1, if_neg h2, if_pos rfl]
    show ampOk ('&' :: 'g' :: 't' :: ';' :: l) = true
    simp [ampOk, entityTails, List.isPrefixOf, h]
  by_cases h4 : a = quotC
  · subst h4; simp only [if_neg h1, if_neg h2, if_neg h3, if_pos rfl]
    show ampOk ('&' :: 'q' :: 'u' :: 'o' :: 't' :: ';' :: l) = true
    simp [ampOk, entityTails, List.isPrefixOf, h]
  by_cases h5 : a = aposC
  · subst h5; simp only [if_neg h1, if_neg h2, if_neg h3, if_neg h4, if_pos rfl]
    show ampOk ('&' :: '#' :: '0' :: '3' :: '9' :: ';' :: l) = true
    simp [ampOk, entityTails, List.isPrefixOf, h]
  · simp only [if_neg h1, if_neg h2, if_neg h3, if_neg h4, if_neg h5]
    show ampOk (a :: l) = true
    simp [ampOk, h1, h]

theorem ampOk_flatMap (l : List Char) : ampOk (l.flatMap escCharL) = true := by
  induction l with
  | nil => rfl
  | cons a l ih => rw [List.flatMap_cons]; exact ampOk_escCharL_append a _ ih

theorem htmlSafe_escapeHTML (s : Option String) : htmlSafe (escapeHTML s) := by
  have hbase : ∀ l : List Char, '<' ∉ l.flatMap escCharL ∧ '>' ∉ l.flatMap escCharL ∧
      quotC ∉ l.flatMap escCharL ∧ aposC ∉ l.flatMap escCharL ∧
      ampOk (l.flatMap escCharL) = true := by
    intro l
    refine ⟨?_, ?_, ?_, ?_, ampOk_flatMap l⟩ <;>
      { intro hmem
        rw [List.mem_flatMap] at hmem
        obtain ⟨a, _, ha⟩ := hmem
        revert ha
        first
        | exact escCharL_no_raw a '<' (Or.inl rfl)
        | exact escCharL_no_raw a '>' (Or.inr (Or.inl rfl))
        | exact escCharL_no_raw a quotC (Or.inr (Or.inr (Or.inl rfl)))
        | exact escCharL_no_raw a aposC (Or.inr (Or.inr (Or.inr rfl))) }
  match s with
  | none => exact ⟨by decide, by decide, by decide, by decide, rfl⟩
  | some str =>
    show htmlSafe (if str = "" then "" else ⟨escapeHTMLList str.data⟩)
    by_cases h : str = ""
    · rw [if_pos h]; exact ⟨by decide, by decide, by decide, by decide, rfl⟩
    · rw [if_neg h]
      unfold htmlSafe
      show '<' ∉ escapeHTMLList str.data ∧ '>' ∉ escapeHTMLList str.data ∧
        quotC ∉ escapeHTMLList str.data ∧ aposC ∉ escapeHTMLList str.data ∧
        ampOk (escapeHTMLList str.data) = true
      rw [escapeHTMLList_eq_flatMap]
      exact hbase str.data

/-- C4: for every file record the rendered row markup interpolates the
path attribute, the filename title, the truncated display name and the
folder path only through `escapeHTML`, which replaces each occurrence of
the five characters with its entity form, so those interpolations never
contain a raw markup-special character. -/
theorem escaped_interpolated_row_markup (f : Int → String) (now : Int)
    (file : RecentFile) (fn : String) (hfn : file.filename = some fn) :
    createFileItemHTML f now file =
      some (rowHTML (escapeHTML file.path) (escapeHTML (some fn))
        (getFileIcon file.extension)
        (escapeHTML (some (truncatedFilename fn)))
        (escapeHTML (some (getFolderPath file.path)))
        (formatRelativeDate f file.modified_at now)) ∧
    (∀ s : String, escapeHTML (some s) = String.mk (s.data.flatMap escCharL)) ∧
    (∀ s : Option String, htmlSafe (escapeHTML s)) := by
  refine ⟨?_, ?_, htmlSafe_escapeHTML⟩
  · unfold createFileItemHTML
    rw [hfn]
  · intro s
    simp only [escapeHTML]
    by_cases h : s = ""
    · subst h; rw [if_pos rfl]; rfl
    · rw [if_neg h, escapeHTMLList_eq_flatMap]

/-- C4 witness: a filename containing markup-special characters renders
as literal escaped text, never as interpretable markup. -/
theorem escaped_interpolated_row_markup_witness :
    createFileItemHTML (fun _ => "") 0
      ⟨some "C:/a&b/x.txt", some "x<y>\x27z\x22.txt", some ".txt", none⟩ =
      some (rowHTML (escapeHTML (some "C:/a&b/x.txt"))
        (escapeHTML (some "x<y>\x27z\x22.txt"))
        (getFileIcon (some ".txt"))
        (escapeHTML (some (truncatedFilename "x<y>\x27z\x22.txt")))
        (escapeHTML (some (getFolderPath (some "C:/a&b/x.txt"))))
        (formatRelativeDate (fun _ => "") none 0)) ∧
    escapeHTML (some "x<y>\x27z\x22.txt") = "x&lt;y&gt;&#039;z&quot;.txt" ∧
    htmlSafe (escapeHTML (some "x<y>\x27z\x22.txt")) := by
  have h := escaped_interpolated_row_markup (fun _ => "") 0
    ⟨some "C:/a&b/x.txt", some "x<y>\x27z\x22.txt", some ".txt", none⟩
    "x<y>\x27z\x22.txt" rfl
  exact ⟨h.1, by decide, h.2.2 (some "x<y>\x27z\x22.txt")⟩

/-- C1 witness: on the cache `[.docx, .pdf, .xlsx]` the `word` selector
keeps exactly the `.docx` entry, the `excel` selector exactly the `.xlsx`
entry, and an unknown selector keeps everything. -/
theorem filter_is_stable_subsequence_by_extension_witness :
    filterFiles [⟨none, none, some ".docx", none⟩, ⟨none, none, some ".pdf", none⟩,
        ⟨none, none, some ".xlsx", none⟩] "word" =
      [⟨none, none, some ".docx", none⟩] ∧
    filterFiles [⟨none, none, some ".docx", none⟩, ⟨none, none, some ".pdf", none⟩,
        ⟨none, none, some ".xlsx", none⟩] "excel" =
      [⟨none, none, some ".xlsx", none⟩] ∧
    filterFiles [⟨none, none, some ".docx", none⟩, ⟨none, none, some ".pdf", none⟩,
        ⟨none, none, some ".xlsx", none⟩] "bogus" =
      [⟨none, none, some ".docx", none⟩, ⟨none, none, some ".pdf", none⟩,
        ⟨none, none, some ".xlsx", none⟩] := by
  refine ⟨?_, ?_, ?_⟩
  · exact ((filter_is_stable_subsequence_by_extension
      [⟨none, none, some ".docx", none⟩, ⟨none, none, some ".pdf", none⟩,
        ⟨none, none, some ".xlsx", none⟩] "word").1).trans (by decide)
  · exact ((filter_is_stable_subsequence_by_extension
      [⟨none, none, some ".docx", none⟩, ⟨none, none, some ".pdf", none⟩,
        ⟨none, none, some ".xlsx", none⟩] "excel").1).trans (by decide)
  · exact ((filter_is_stable_subsequence_by_extension
      [⟨none, none, some ".docx", none⟩, ⟨none, none, some ".pdf", none⟩,
        ⟨none, none, some ".xlsx", none⟩] "bogus").1).trans (by decide)

/-- C2 witness: a failed fetch with a status message leaves an empty prior
cache empty and renders the error template. -/
theorem fetch_failure_keeps_cache_and_renders_error_witness :
    loadRecentFiles [] "all" (fun _ => "") 0 (.error "API error: 500") =
      ([], errorHTML "API error: 500") :=
  (fetch_failure_keeps_cache_and_renders_error [] "all" (fun _ => "") 0
    "API error: 500").1

/-- C8 witness: a `{hits: []}` response empties the cache and renders the
Empty state, which differs from the Errored state for a sample message. -/
theorem missing_hits_empty_state_witness :
    loadRecentFiles [⟨none, some "a", none, none⟩] "all" (fun _ => "") 0
      (.ok ⟨some []⟩) = ([], emptyHTML) ∧
    emptyHTML ≠ errorHTML "API error: 500" := by
  have h := missing_hits_empty_state [⟨none, some "a", none, none⟩] "all"
    (fun _ => "") 0
  exact ⟨h.2.1, h.2.2 "API error: 500"⟩

/-- C9 witness: a forward-slash path is normalized and loses its final
segment. -/
theorem folder_path_derivation_witness :
    getFolderPath (some "C:/Users/me/doc.pdf") = "C:\\Users\\me" :=
  ((folder_path_derivation "C:/Users/me/doc.pdf").1).trans (by decide)

end RecentFilesPanel
